import Mathlib

set_option maxHeartbeats 1000000

/-!
Shallow embedding of the SAP-IS-CICD batch deployment orchestrator
(src/backend/main.py): the deployment data model, the tenant client
operations used by the workflow, the per-artifact five-phase workflow
`deploy_single_artifact`, the parallel executor `execute_batch_deployment`,
and the submission handler `batch_deploy_artifacts`.

Remote calls are modelled by an environment record giving each call's
outcome; an exception raised by a call is an `Except.error` carrying the
exception message, and the workflow's boundary `except` handler is
`failProgress`. Timestamps are abstract strings supplied by the
environment.
-/

/-- `DeploymentArtifact` (pydantic model). -/
structure DeploymentArtifact where
  iflowId : String
  iflowName : String
  version : String
  packageId : String
  packageName : String
deriving DecidableEq, Repr

/-- `DeploymentProgress` (pydantic model), with the model's default values. -/
structure DeploymentProgress where
  iflowId : String
  iflowName : String
  version : String
  packageId : String
  packageName : String
  uploadStatus : String := "pending"
  uploadProgress : Nat := 0
  configureStatus : String := "pending"
  configureProgress : Nat := 0
  deployStatus : String := "pending"
  deployProgress : Nat := 0
  overallStatus : String := "pending"
  message : String := "Ready for deployment"
  errorMessage : Option String := none
  startTime : Option String := none
  endTime : Option String := none
deriving DecidableEq, Repr

/-- `BatchDeploymentRequest` (pydantic model). -/
structure BatchDeploymentRequest where
  artifacts : List DeploymentArtifact
  target_environment : String := "CCCI_PROD"
  deployment_id : Option String := none
deriving DecidableEq, Repr

/-- `BatchDeploymentResponse` (pydantic model); this is the session record
kept in the `deployment_sessions` registry. -/
structure BatchDeploymentResponse where
  deployment_id : String
  target_environment : String
  total_artifacts : Nat
  status : String
  progress : List DeploymentProgress
  start_time : String
  estimated_completion : Option String := none
deriving DecidableEq, Repr

/-- One row of the pipe-delimited configuration CSV, as read by
`csv.DictReader` in step 4 of the workflow. -/
structure ConfigRow where
  iFlow_ID : String
  iFlow_Name : String
  iFlow_Version : String
  Parameter_Key : String
  Parameter_Value : String
  Parameter_Type : String
deriving DecidableEq, Repr

/-- One entry of the `failures` list collected by
`SAPDynamicClient.batch_update_iflow_config`. -/
structure ParamFailure where
  ParameterKey : String
  Error : String
deriving DecidableEq, Repr

/-- The loop body of `SAPDynamicClient.batch_update_iflow_config`: every
parameter is attempted via `update_iflow_config_param` (whose outcome the
oracle `upd` supplies); a raised exception is appended to `failures` and the
loop continues. Returns the keys attempted, in order, and the collected
failure list. -/
def batchUpdateLoop (upd : ConfigRow → Except String Unit) :
    List ConfigRow → List String × List ParamFailure
  | [] => ([], [])
  | p :: rest =>
    let tail := batchUpdateLoop upd rest
    match upd p with
    | Except.ok _ => (p.Parameter_Key :: tail.fst, tail.snd)
    | Except.error e => (p.Parameter_Key :: tail.fst, ⟨p.Parameter_Key, e⟩ :: tail.snd)

/-- `SAPDynamicClient.batch_update_iflow_config`: run the update loop over all
parameters, then raise an aggregate error built from the collected failures
iff any failure was collected, else return `True`. The first component is
the ordered list of attempted parameter keys. -/
def batch_update_iflow_config (upd : ConfigRow → Except String Unit)
    (parameters : List ConfigRow) : List String × Except (List ParamFailure) Bool :=
  let r := batchUpdateLoop upd parameters
  (r.fst, if r.snd.isEmpty then Except.ok true else Except.error r.snd)

/-- Python `or` on an optional string: `None` and `""` fall through to the
default (Python truthiness). -/
def pyOr (a : Option String) (b : String) : String :=
  match a with
  | none => b
  | some s => if s.isEmpty then b else s

/-- Minimal HTTP response view: status code, body text and the `Location`
response header. -/
structure HttpResponse where
  status_code : Nat
  text : String
  locationHeader : Option String := none
deriving DecidableEq, Repr

/-- The result dictionary returned by `SAPDynamicClient.deploy_iflow`. -/
structure DeployResult where
  status : String
  message : String
  target_environment : String
  deployment_id : Option String := none
deriving DecidableEq, Repr

/-- `SAPDynamicClient.deploy_iflow`, as a function of the HTTP response of the
deploy POST: statuses 200 and 202 yield a `deployed` result, anything else a
`failed` result carrying the remote status code and body; no exception is
raised in either case. -/
def deploy_iflow (iflow_id _version : String) (target_environment : Option String)
    (base_url : String) (resp : HttpResponse) : DeployResult :=
  if resp.status_code = 200 ∨ resp.status_code = 202 then
    { status := "deployed"
      message := "Deployment started for " ++ iflow_id
      target_environment := pyOr target_environment base_url
      deployment_id := some (resp.locationHeader.getD "") }
  else
    { status := "failed"
      message := "Deployment failed: " ++ toString resp.status_code ++ " " ++ resp.text
      target_environment := pyOr target_environment base_url }

/-- The `allowed_fields` list of `SAPDynamicClient.create_package_from_source`. -/
def allowed_fields : List String :=
  ["Id", "Name", "ShortText", "Description", "Vendor", "SupportedPlatform",
   "Version", "Products", "Keywords", "Countries", "Industries", "LineOfBusiness"]

/-- httpx `Response.raise_for_status` raises iff the status is not 2xx. -/
def is_success_status (code : Nat) : Bool :=
  decide (200 ≤ code ∧ code ≤ 299)

/-- `SAPDynamicClient.create_package_from_source`: filter the source package
metadata down to the allow-listed fields with (Python-)truthy values, POST
that payload, raise for a non-2xx creation status, else report whether the
status was 201. Returns the submitted payload together with the outcome. -/
def create_package_from_source (source_package_data : List (String × String))
    (respStatus : Nat) : List (String × String) × Except String Bool :=
  let payload := source_package_data.filter
    (fun kv => decide (kv.fst ∈ allowed_fields) && !kv.snd.isEmpty)
  (payload,
    if is_success_status respStatus then Except.ok (decide (respStatus = 201))
    else Except.error ("HTTP status error: " ++ toString respStatus))

/-- The token state held by a `SAPDynamicClient` instance. -/
structure ClientState where
  oauth_token : Option String := none
  token_expiry : Option Int := none
deriving DecidableEq, Repr

/-- `SAPDynamicClient._is_token_expired`: no recorded expiry counts as
expired; otherwise expired iff `now + 60` seconds is at or past the expiry
instant. -/
def is_token_expired (now : Int) (s : ClientState) : Bool :=
  match s.token_expiry with
  | none => true
  | some expiry => decide (now + 60 ≥ expiry)

/-- Python truthiness of the stored token (`not self.oauth_token`): `None`
and the empty string are falsy. -/
def token_falsy (s : ClientState) : Bool :=
  match s.oauth_token with
  | none => true
  | some t => t.isEmpty

/-- The header set returned by `SAPDynamicClient._get_auth_headers`. -/
def authHeaders (tok : String) : List (String × String) :=
  [("Authorization", "Bearer " ++ tok), ("Accept", "application/json")]

/-- `SAPDynamicClient._get_auth_headers`: refresh the token first when it is
falsy or expiring within 60 seconds (the token endpoint's response is the
oracle `refreshOutcome`, giving `access_token` and `expires_in`), then return
the bearer header set. The final `Nat` counts refresh round trips performed. -/
def get_auth_headers (now : Int) (refreshOutcome : Except String (String × Int))
    (s : ClientState) : Except String (ClientState × List (String × String) × Nat) :=
  if token_falsy s || is_token_expired now s then
    match refreshOutcome with
    | Except.error e => Except.error e
    | Except.ok (tok, expires_in) =>
      Except.ok ({ oauth_token := some tok, token_expiry := some (now + expires_in) },
                 authHeaders tok, 1)
  else
    Except.ok (s, authHeaders (s.oauth_token.getD ""), 0)

/-- The phases of the artifact workflow, in execution order. -/
inductive Step where
  | fetch
  | ensurePackage
  | uploadOrUpdate
  | configure
  | deploy
deriving DecidableEq, Repr

/-- Outcome environment for one artifact's workflow: the result of every
remote call (and of the CSV read), where `Except.error` is a raised
exception carrying its message. -/
structure ArtifactEnv where
  now : String := "t"
  fetchArtifact : Except String String
  packageExists : Except String Bool
  getPackageDetails : Except String Unit
  createPackage : Except String Unit
  iflowExists : Except String Bool
  uploadIflow : Except String Unit
  updateIflow : Except String Unit
  readConfigRows : Except String (List ConfigRow)
  updParam : ConfigRow → Except String Unit
  deployCall : Except String DeployResult

/-- The `except` handler at the boundary of `deploy_single_artifact`: mark
the artifact failed, capture the message, stamp the end time. Phase status
fields are left untouched. -/
def failProgress (now e : String) (p : DeploymentProgress) : DeploymentProgress :=
  { p with overallStatus := "failed"
           errorMessage := some e
           message := "Deployment failed: " ++ e
           endTime := some now }

/-- Rendering of the aggregate exception message raised by
`batch_update_iflow_config` (Python formats the list of failure dicts into
the message). -/
def aggregateErrorMessage (fs : List ParamFailure) : String :=
  "Some parameters failed to update: " ++
    String.intercalate ", " (fs.map (fun f => f.ParameterKey ++ ": " ++ f.Error))

/-- Step 5 of `deploy_single_artifact`: deploy the iFlow in CCCI_PROD. A
`deployed` result completes the artifact; any other result, or a raised
exception, fails it. -/
def dsaStep5Deploy (env : ArtifactEnv) (p8 : DeploymentProgress)
    (tr : List (Step × DeploymentProgress)) :
    DeploymentProgress × List (Step × DeploymentProgress) :=
  let p9 := { p8 with deployStatus := "deploying", deployProgress := 10,
                      message := "Deploying iFlow to runtime..." }
  match env.deployCall with
  | Except.error e => (failProgress env.now e p9, tr)
  | Except.ok res =>
    let pFinal :=
      if res.status == "deployed" then
        { p9 with deployStatus := "completed", deployProgress := 100,
                  message := res.message, overallStatus := "completed",
                  endTime := some env.now }
      else
        { p9 with deployStatus := "failed", deployProgress := 0,
                  message := res.message, errorMessage := some res.message,
                  overallStatus := "failed", endTime := some env.now }
    (pFinal, tr ++ [(Step.deploy, pFinal)])

/-- Step 4 of `deploy_single_artifact`: read the configuration CSV, keep the
rows matching this artifact id and version. No matching row soft-fails the
configure phase (overall status untouched) and still proceeds to deploy; a
non-empty row set goes through `batch_update_iflow_config`, whose aggregate
exception aborts the workflow. -/
def dsaStep4Configure (env : ArtifactEnv) (artifact : DeploymentArtifact)
    (p6 : DeploymentProgress) (tr : List (Step × DeploymentProgress)) :
    DeploymentProgress × List (Step × DeploymentProgress) :=
  let p7 := { p6 with configureStatus := "configuring",
                      message := "Applying configuration parameters..." }
  match env.readConfigRows with
  | Except.error e => (failProgress env.now e p7, tr)
  | Except.ok rows =>
    let parameters := rows.filter (fun r =>
      r.iFlow_ID == artifact.iflowId && r.iFlow_Version == artifact.version)
    if parameters.isEmpty then
      let p8 := { p7 with
        configureStatus := "failed",
        message := "No configuration parameters found for this iFlow/version.",
        errorMessage := some "No configuration parameters found.",
        configureProgress := 0 }
      dsaStep5Deploy env p8 (tr ++ [(Step.configure, p8)])
    else
      match (batch_update_iflow_config env.updParam parameters).snd with
      | Except.error fs => (failProgress env.now (aggregateErrorMessage fs) p7, tr)
      | Except.ok _ =>
        let p8 := { p7 with configureStatus := "completed", configureProgress := 100,
                            message := "Configuration applied successfully. Ready to deploy." }
        dsaStep5Deploy env p8 (tr ++ [(Step.configure, p8)])

/-- Step 3 of `deploy_single_artifact`: check iFlow existence in CCCI_PROD,
then update it if present, else upload it. -/
def dsaStep3Upload (env : ArtifactEnv) (artifact : DeploymentArtifact)
    (p5 : DeploymentProgress) (tr : List (Step × DeploymentProgress)) :
    DeploymentProgress × List (Step × DeploymentProgress) :=
  match env.iflowExists with
  | Except.error e => (failProgress env.now e p5, tr)
  | Except.ok iflowEx =>
    match (if iflowEx then env.updateIflow else env.uploadIflow) with
    | Except.error e => (failProgress env.now e p5, tr)
    | Except.ok _ =>
      let p6 := { p5 with message := "iFlow uploaded/updated, applying configuration..." }
      dsaStep4Configure env artifact p6 (tr ++ [(Step.uploadOrUpdate, p6)])

/-- Step 2 of `deploy_single_artifact`: ensure the package exists in
CCCI_PROD; when absent, fetch the source package details and create the
destination package. The OData `d`-envelope unwrap of the details is pure
data reshaping and is folded into the `createPackage` outcome. -/
def dsaStep2Package (env : ArtifactEnv) (artifact : DeploymentArtifact)
    (p3 : DeploymentProgress) (tr : List (Step × DeploymentProgress)) :
    DeploymentProgress × List (Step × DeploymentProgress) :=
  let p4 := { p3 with configureStatus := "checking",
                      message := "Checking if package exists in CCCI_PROD..." }
  match env.packageExists with
  | Except.error e => (failProgress env.now e p4, tr)
  | Except.ok pkgExists =>
    let ensure : Except String Unit :=
      if pkgExists then Except.ok () else
        match env.getPackageDetails with
        | Except.error e => Except.error e
        | Except.ok _ => env.createPackage
    match ensure with
    | Except.error e => (failProgress env.now e p4, tr)
    | Except.ok _ =>
      let p5 := { p4 with configureStatus := "completed", configureProgress := 100,
                          message := "Package ready, uploading or updating iFlow..." }
      dsaStep3Upload env artifact p5 (tr ++ [(Step.ensurePackage, p5)])

/-- `deploy_single_artifact` from `execute_batch_deployment`: the five-phase
workflow for one artifact, over the outcome environment `env`, started on
progress record `p0` (the artifact's own entry of `deployment.progress`).
The step functions `dsaStep2Package` .. `dsaStep5Deploy` mirror the numbered
step blocks of the Python body, chained in order. Returns the final progress
record together with a trace of the phases that completed, each paired with
the progress snapshot recorded at the end of that phase (every phase update
lands on the record before the next phase starts). A raised exception is
caught at the workflow boundary by `failProgress`, so no later phase runs
after it. -/
def deploy_single_artifact (env : ArtifactEnv) (artifact : DeploymentArtifact)
    (p0 : DeploymentProgress) :
    DeploymentProgress × List (Step × DeploymentProgress) :=
  let p1 := { p0 with overallStatus := "in-progress", startTime := some env.now,
                      message := "Starting deployment process..." }
  let p2 := { p1 with uploadStatus := "fetching",
                      message := "Fetching artifact from CCCI_SANDBOX..." }
  match env.fetchArtifact with
  | Except.error e => (failProgress env.now e p2, [])
  | Except.ok _content =>
    let p3 := { p2 with uploadStatus := "completed", uploadProgress := 100,
                        message := "Artifact fetched, ensuring package exists in CCCI_PROD..." }
    dsaStep2Package env artifact p3 [(Step.fetch, p3)]

/-- Per-index fan-out of `deploy_single_artifact` inside
`execute_batch_deployment`: coroutine `i` reads and writes only
`deployment.progress[i]`; its remote-call outcomes are `envs i`. -/
def runWorkflows (envs : Nat → ArtifactEnv) :
    Nat → List (DeploymentArtifact × DeploymentProgress) → List DeploymentProgress
  | _, [] => []
  | i, (a, p) :: rest =>
    (deploy_single_artifact (envs i) a p).fst :: runWorkflows envs (i + 1) rest

/-- The final aggregation step of `execute_batch_deployment`. -/
def computeSessionStatus (progress : List DeploymentProgress) : String :=
  let completed_count := (progress.filter (fun p => p.overallStatus == "completed")).length
  let failed_count := (progress.filter (fun p => p.overallStatus == "failed")).length
  if failed_count = 0 then "completed"
  else if completed_count = 0 then "failed"
  else "partial"

/-- `execute_batch_deployment`: run every artifact workflow (each workflow
owns the progress record at its own index; `asyncio.gather` with
`return_exceptions=True` joins them all regardless of individual outcome),
then recompute the session status from the final progress records and stamp
the completion time. -/
def execute_batch_deployment (envs : Nat → ArtifactEnv) (now : String)
    (artifacts : List DeploymentArtifact) (session : BatchDeploymentResponse) :
    BatchDeploymentResponse :=
  let newProgress := runWorkflows envs 0 (artifacts.zip session.progress)
      ++ session.progress.drop artifacts.length
  { session with
      status := computeSessionStatus newProgress
      progress := newProgress
      estimated_completion := some now }

/-- The initial progress record built in `batch_deploy_artifacts` for one
artifact: all phase fields take the `DeploymentProgress` model defaults. -/
def initialProgress (a : DeploymentArtifact) : DeploymentProgress :=
  { iflowId := a.iflowId, iflowName := a.iflowName, version := a.version,
    packageId := a.packageId, packageName := a.packageName }

/-- `batch_deploy_artifacts`: build the session that is stored in
`deployment_sessions` and returned to the caller, before the executor task
is scheduled. `generatedId` is the server-generated fallback deployment id. -/
def batch_deploy_artifacts (req : BatchDeploymentRequest)
    (generatedId now : String) : BatchDeploymentResponse :=
  { deployment_id := pyOr req.deployment_id generatedId
    target_environment := req.target_environment
    total_artifacts := req.artifacts.length
    status := "initialized"
    progress := req.artifacts.map initialProgress
    start_time := now }

/-- The `deployment_sessions` registry after storing a new session. -/
def storeSession (store : List (String × BatchDeploymentResponse))
    (s : BatchDeploymentResponse) : List (String × BatchDeploymentResponse) :=
  (s.deployment_id, s) :: store

/-- Registry lookup used by the status endpoint `get_deployment_status`. -/
def getSession (store : List (String × BatchDeploymentResponse))
    (did : String) : Option BatchDeploymentResponse :=
  (store.find? (fun kv => kv.fst == did)).map (fun kv => kv.snd)

/-- The package-ensure phase (step 2) succeeds: either the destination
package already exists, or fetching the source package details and creating
the destination package both succeed. -/
def packagePhaseOk (env : ArtifactEnv) : Prop :=
  env.packageExists = Except.ok true ∨
  (env.packageExists = Except.ok false ∧ env.getPackageDetails = Except.ok () ∧
    env.createPackage = Except.ok ())

instance {e a : Type} [DecidableEq e] [DecidableEq a] : DecidableEq (Except e a) := fun x y =>
  match x, y with
  | Except.ok v, Except.ok w =>
    if h : v = w then isTrue (by rw [h]) else isFalse (fun hc => h (by injection hc))
  | Except.error v, Except.error w =>
    if h : v = w then isTrue (by rw [h]) else isFalse (fun hc => h (by injection hc))
  | Except.ok _, Except.error _ => isFalse (fun hc => Except.noConfusion hc)
  | Except.error _, Except.ok _ => isFalse (fun hc => Except.noConfusion hc)

/-- Concrete artifact used to evaluate the model on closed inputs. -/
def artA : DeploymentArtifact :=
  { iflowId := "FLOW1", iflowName := "Flow One", version := "1.0.0",
    packageId := "PKG1", packageName := "Package One" }

/-- A configuration row matching `artA`, parameter key `k1`. -/
def rowK1 : ConfigRow :=
  { iFlow_ID := "FLOW1", iFlow_Name := "Flow One", iFlow_Version := "1.0.0",
    Parameter_Key := "k1", Parameter_Value := "v1", Parameter_Type := "xsd:string" }

/-- A configuration row matching `artA`, parameter key `k2`. -/
def rowK2 : ConfigRow :=
  { rowK1 with Parameter_Key := "k2", Parameter_Value := "v2" }

/-- A `deployed` deploy-call result. -/
def deployedResult : DeployResult :=
  { status := "deployed", message := "Deployment started for FLOW1",
    target_environment := "CCCI_PROD" }

/-- A `failed` deploy-call result. -/
def failedResult : DeployResult :=
  { status := "failed", message := "Deployment failed: 500 err",
    target_environment := "CCCI_PROD" }

/-- Environment in which every remote call succeeds but the configuration
CSV holds no row for the artifact. -/
def envAllOkNoRows : ArtifactEnv :=
  { fetchArtifact := Except.ok "bytes"
    packageExists := Except.ok true
    getPackageDetails := Except.ok ()
    createPackage := Except.ok ()
    iflowExists := Except.ok true
    uploadIflow := Except.ok ()
    updateIflow := Except.ok ()
    readConfigRows := Except.ok []
    updParam := fun _ => Except.ok ()
    deployCall := Except.ok deployedResult }

/-- Environment in which everything succeeds up to deploy, which returns a
`failed` result. -/
def envDeployFails : ArtifactEnv :=
  { envAllOkNoRows with readConfigRows := Except.ok [rowK1],
                        deployCall := Except.ok failedResult }

/-- Environment in which the destination upload call raises (iFlow absent in
CCCI_PROD, POST rejected). -/
def envUploadRaises : ArtifactEnv :=
  { envAllOkNoRows with iflowExists := Except.ok false,
                        uploadIflow := Except.error "Failed to upload iFlow: 500 err" }

/-- Parameter-update oracle failing exactly on key `k1`. -/
def updFailsOnK1 : ConfigRow → Except String Unit :=
  fun r => if r.Parameter_Key == "k1" then Except.error "boom" else Except.ok ()

/-- A two-artifact batch request. -/
def reqTwo : BatchDeploymentRequest := { artifacts := [artA, artA] }

/-- Per-index environments for a mixed batch: artifact 0 fails at deploy,
artifact 1 completes. -/
def envsMixed : Nat → ArtifactEnv :=
  fun i => if i = 0 then envDeployFails else envAllOkNoRows

/-- Environment in which the artifact fetch from the source tenant raises. -/
def envFetchRaises : ArtifactEnv :=
  { envAllOkNoRows with fetchArtifact := Except.error "404 Not Found" }

/-- Environment in which the aggregate configuration update raises (row
present, its parameter update fails). -/
def envConfigRaises : ArtifactEnv :=
  { envAllOkNoRows with readConfigRows := Except.ok [rowK1],
                        updParam := updFailsOnK1 }

/-! Helper lemmas about the workflow and the batch-update loop. -/

theorem batchUpdateLoop_fst (upd : ConfigRow → Except String Unit) :
    ∀ ps : List ConfigRow,
      (batchUpdateLoop upd ps).fst = ps.map (fun p => p.Parameter_Key)
  | [] => rfl
  | p :: rest => by
    cases h : upd p <;>
      simp [batchUpdateLoop, h, batchUpdateLoop_fst upd rest]

theorem batchUpdateLoop_snd_nil_iff (upd : ConfigRow → Except String Unit) :
    ∀ ps : List ConfigRow,
      (batchUpdateLoop upd ps).snd = [] ↔ ∀ p ∈ ps, ∀ e, upd p ≠ Except.error e
  | [] => by simp [batchUpdateLoop]
  | p :: rest => by
    cases h : upd p with
    | error e =>
      simp only [batchUpdateLoop, h]
      constructor
      · intro hc
        exact absurd hc (by simp)
      · intro hall
        exact absurd h (hall p (by simp) e)
    | ok u =>
      simp only [batchUpdateLoop, h]
      rw [batchUpdateLoop_snd_nil_iff upd rest]
      constructor
      · intro hall q hq e2
        rcases List.mem_cons.mp hq with rfl | hq2
        · rw [h]; intro hc; exact Except.noConfusion hc
        · exact hall q hq2 e2
      · intro hall q hq e2
        exact hall q (List.mem_cons_of_mem _ hq) e2

theorem batchUpdateLoop_mem_snd (upd : ConfigRow → Except String Unit) :
    ∀ ps : List ConfigRow, ∀ p ∈ ps, ∀ e, upd p = Except.error e →
      (⟨p.Parameter_Key, e⟩ : ParamFailure) ∈ (batchUpdateLoop upd ps).snd
  | [], p, hp, _, _ => absurd hp (List.not_mem_nil p)
  | q :: rest, p, hp, e, he => by
    rcases List.mem_cons.mp hp with rfl | hp2
    · simp [batchUpdateLoop, he]
    · cases h : upd q <;>
        simp [batchUpdateLoop, h, batchUpdateLoop_mem_snd upd rest p hp2 e he]

/-- Claim C5: `batch_update_iflow_config` attempts the remote update for
every row (in order) even when earlier rows fail, and raises an aggregate
error iff some row's update failed; the aggregate error lists the key of
every failed row. -/
theorem batch_update_best_effort (upd : ConfigRow → Except String Unit)
    (ps : List ConfigRow) :
    (batch_update_iflow_config upd ps).fst = ps.map (fun p => p.Parameter_Key) ∧
    ((∃ fs, (batch_update_iflow_config upd ps).snd = Except.error fs) ↔
      ∃ p ∈ ps, ∃ e, upd p = Except.error e) ∧
    (∀ fs, (batch_update_iflow_config upd ps).snd = Except.error fs →
      ∀ p ∈ ps, ∀ e, upd p = Except.error e →
        p.Parameter_Key ∈ fs.map (fun f => f.ParameterKey)) := by
  refine ⟨batchUpdateLoop_fst upd ps, ?_, ?_⟩
  · constructor
    · rintro ⟨fs, hfs⟩
      unfold batch_update_iflow_config at hfs
      by_cases h : (batchUpdateLoop upd ps).snd.isEmpty = true
      · simp [h] at hfs
      · have hne : (batchUpdateLoop upd ps).snd ≠ [] := by
          intro hc
          exact h (by simp [hc])
        have h2 : ¬ ∀ p ∈ ps, ∀ e, upd p ≠ Except.error e :=
          fun hall => hne ((batchUpdateLoop_snd_nil_iff upd ps).mpr hall)
        push_neg at h2
        exact h2
    · rintro ⟨p, hp, e, he⟩
      have hmem := batchUpdateLoop_mem_snd upd ps p hp e he
      have hne : ¬ (batchUpdateLoop upd ps).snd.isEmpty = true := by
        intro hc
        rw [List.isEmpty_iff.mp hc] at hmem
        exact absurd hmem (List.not_mem_nil _)
      unfold batch_update_iflow_config
      simp [hne]
  · intro fs hfs p hp e he
    unfold batch_update_iflow_config at hfs
    by_cases h : (batchUpdateLoop upd ps).snd.isEmpty = true
    · simp [h] at hfs
    · simp only [h, Bool.false_eq_true, if_false, Except.error.injEq] at hfs
      have hmem := batchUpdateLoop_mem_snd upd ps p hp e he
      rw [hfs] at hmem
      exact List.mem_map.mpr ⟨⟨p.Parameter_Key, e⟩, hmem, rfl⟩

/-- Claim C5 witness: with rows `k1` (failing) and `k2` (succeeding), both
updates are attempted in order and the aggregate error names `k1`. -/
theorem batch_update_best_effort_witness :
    (batch_update_iflow_config updFailsOnK1 [rowK1, rowK2]).fst = ["k1", "k2"] ∧
    (∃ fs, (batch_update_iflow_config updFailsOnK1 [rowK1, rowK2]).snd =
      Except.error fs) ∧
    (∀ fs, (batch_update_iflow_config updFailsOnK1 [rowK1, rowK2]).snd =
      Except.error fs → "k1" ∈ fs.map (fun f => f.ParameterKey)) := by
  have h := batch_update_best_effort updFailsOnK1 [rowK1, rowK2]
  refine ⟨h.1, ?_, ?_⟩
  · exact (h.2.1).mpr ⟨rowK1, by decide, "boom", by decide⟩
  · intro fs hfs
    exact h.2.2 fs hfs rowK1 (by decide) "boom" (by decide)

/-- Claim C6: `_get_auth_headers` performs exactly one token refresh before
returning headers when the stored token is absent (falsy) or expires within
60 seconds, returning headers built from the fresh token; when a non-empty
token is present whose expiry is more than 60 seconds away, it performs no
refresh and returns headers built from the stored token. -/
theorem token_refresh_policy (now : Int)
    (refreshOutcome : Except String (String × Int)) (s : ClientState) :
    ((token_falsy s = true ∨ is_token_expired now s = true) →
      ∀ tok expires_in, refreshOutcome = Except.ok (tok, expires_in) →
        get_auth_headers now refreshOutcome s =
          Except.ok ({ oauth_token := some tok,
                       token_expiry := some (now + expires_in) },
                     authHeaders tok, 1)) ∧
    (∀ t expiry, s.oauth_token = some t → t.isEmpty = false →
      s.token_expiry = some expiry → now + 60 < expiry →
      get_auth_headers now refreshOutcome s = Except.ok (s, authHeaders t, 0)) := by
  constructor
  · intro h tok expires_in hr
    have hcond : (token_falsy s || is_token_expired now s) = true := by
      rcases h with h | h <;> simp [h]
    simp [get_auth_headers, hcond, hr]
  · intro t expiry ht hne hexp hlt
    have hf : token_falsy s = false := by
      simp [token_falsy, ht, hne]
    have hx : is_token_expired now s = false := by
      simp only [is_token_expired, hexp, decide_eq_false_iff_not]
      omega
    have hcond : (token_falsy s || is_token_expired now s) = false := by
      simp [hf, hx]
    simp [get_auth_headers, hcond, ht]

/-- Claim C6 witness: at `now = 1000`, a token expiring at `1030`
(30 seconds away) triggers exactly one refresh and the fresh token is used;
a token expiring at `1300` (300 seconds away) triggers none. -/
theorem token_refresh_policy_witness :
    get_auth_headers 1000 (Except.ok ("newtok", 3600))
        { oauth_token := some "tok", token_expiry := some 1030 } =
      Except.ok ({ oauth_token := some "newtok", token_expiry := some 4600 },
                 authHeaders "newtok", 1) ∧
    get_auth_headers 1000 (Except.ok ("newtok", 3600))
        { oauth_token := some "tok", token_expiry := some 1300 } =
      Except.ok ({ oauth_token := some "tok", token_expiry := some 1300 },
                 authHeaders "tok", 0) := by
  constructor
  · exact (token_refresh_policy 1000 (Except.ok ("newtok", 3600))
      { oauth_token := some "tok", token_expiry := some 1030 }).1
      (Or.inr (by decide)) "newtok" 3600 rfl
  · exact (token_refresh_policy 1000 (Except.ok ("newtok", 3600))
      { oauth_token := some "tok", token_expiry := some 1300 }).2
      "tok" 1300 rfl (by decide) rfl (by decide)

/-- Claim C7: `deploy_iflow` returns a `deployed` result when the remote
status is 200 or 202, and otherwise a `failed` result whose message carries
the remote status and body; the function is total (it never raises). -/
theorem deploy_iflow_result_status (iflow_id ver : String)
    (target_environment : Option String) (base_url : String)
    (resp : HttpResponse) :
    ((resp.status_code = 200 ∨ resp.status_code = 202) →
      (deploy_iflow iflow_id ver target_environment base_url resp).status =
        "deployed") ∧
    (¬(resp.status_code = 200 ∨ resp.status_code = 202) →
      (deploy_iflow iflow_id ver target_environment base_url resp).status =
        "failed" ∧
      (deploy_iflow iflow_id ver target_environment base_url resp).message =
        "Deployment failed: " ++ toString resp.status_code ++ " " ++ resp.text) := by
  constructor
  · intro h
    simp [deploy_iflow, h]
  · intro h
    simp [deploy_iflow, h]

/-- Claim C7 witness: HTTP 202 yields a `deployed` result and HTTP 500 a
`failed` result carrying status and body. -/
theorem deploy_iflow_result_status_witness :
    (deploy_iflow "FLOW1" "1.0.0" (some "CCCI_PROD") "https://prod"
        { status_code := 202, text := "" }).status = "deployed" ∧
    (deploy_iflow "FLOW1" "1.0.0" (some "CCCI_PROD") "https://prod"
        { status_code := 500, text := "boom" }).status = "failed" ∧
    (deploy_iflow "FLOW1" "1.0.0" (some "CCCI_PROD") "https://prod"
        { status_code := 500, text := "boom" }).message =
      "Deployment failed: 500 boom" := by
  refine ⟨?_, ?_⟩
  · exact (deploy_iflow_result_status "FLOW1" "1.0.0" (some "CCCI_PROD")
      "https://prod" { status_code := 202, text := "" }).1 (Or.inr rfl)
  · have h := (deploy_iflow_result_status "FLOW1" "1.0.0" (some "CCCI_PROD")
      "https://prod" { status_code := 500, text := "boom" }).2 (by decide)
    exact ⟨h.1, h.2⟩

/-- Claim C8: `create_package_from_source` submits exactly the metadata
entries whose key is in the fixed allow-list and whose value is non-empty,
and the call fails with an error iff the creation response status is not a
2xx success status. -/
theorem create_package_allowlist (source_package_data : List (String × String))
    (respStatus : Nat) :
    (∀ kv, kv ∈ (create_package_from_source source_package_data respStatus).fst ↔
      kv ∈ source_package_data ∧ kv.fst ∈ allowed_fields ∧
        kv.snd.isEmpty = false) ∧
    ((∃ e, (create_package_from_source source_package_data respStatus).snd =
        Except.error e) ↔ ¬(200 ≤ respStatus ∧ respStatus ≤ 299)) := by
  constructor
  · intro kv
    simp [create_package_from_source, List.mem_filter, Bool.not_eq_true',
      and_assoc]
  · by_cases h : 200 ≤ respStatus ∧ respStatus ≤ 299
    · simp [create_package_from_source, is_success_status, h]
    · simp [create_package_from_source, is_success_status, h]

/-- Claim C8 witness: of `Id` (non-empty), `Name` (empty) and `Mode` (not
allow-listed), only `Id` is submitted; status 201 raises no error, status
404 raises one. -/
theorem create_package_allowlist_witness :
    ("Id", "P1") ∈ (create_package_from_source
        [("Id", "P1"), ("Name", ""), ("Mode", "X")] 201).fst ∧
    (("Name", "") ∈ (create_package_from_source
        [("Id", "P1"), ("Name", ""), ("Mode", "X")] 201).fst → False) ∧
    (("Mode", "X") ∈ (create_package_from_source
        [("Id", "P1"), ("Name", ""), ("Mode", "X")] 201).fst → False) ∧
    ((∃ e, (create_package_from_source
        [("Id", "P1"), ("Name", ""), ("Mode", "X")] 201).snd =
          Except.error e) → False) ∧
    (∃ e, (create_package_from_source
        [("Id", "P1"), ("Name", ""), ("Mode", "X")] 404).snd =
          Except.error e) := by
  have h201 := create_package_allowlist [("Id", "P1"), ("Name", ""), ("Mode", "X")] 201
  have h404 := create_package_allowlist [("Id", "P1"), ("Name", ""), ("Mode", "X")] 404
  refine ⟨?_, ?_, ?_, ?_, ?_⟩
  · exact (h201.1 ("Id", "P1")).mpr ⟨by decide, by decide, by decide⟩
  · intro hmem
    exact absurd ((h201.1 ("Name", "")).mp hmem).2.2 (by decide)
  · intro hmem
    exact absurd ((h201.1 ("Mode", "X")).mp hmem).2.1 (by decide)
  · intro hex
    exact absurd (h201.2.mp hex) (by decide)
  · exact h404.2.mpr (by decide)

/-- Claim C9: the session built by `batch_deploy_artifacts` (and stored in
`deployment_sessions` under its deployment id) has status `initialized`,
total artifact count equal to the number of submitted artifacts, and one
progress record per submitted artifact in submission order, each with all
statuses `pending`. -/
theorem batch_submission_initial_state (req : BatchDeploymentRequest)
    (generatedId now : String)
    (store : List (String × BatchDeploymentResponse)) :
    (batch_deploy_artifacts req generatedId now).status = "initialized" ∧
    (batch_deploy_artifacts req generatedId now).total_artifacts =
      req.artifacts.length ∧
    (batch_deploy_artifacts req generatedId now).progress.length =
      req.artifacts.length ∧
    (∀ (j : Nat) (a : DeploymentArtifact), req.artifacts[j]? = some a →
      (batch_deploy_artifacts req generatedId now).progress[j]? =
        some (initialProgress a)) ∧
    (∀ p ∈ (batch_deploy_artifacts req generatedId now).progress,
      p.overallStatus = "pending" ∧ p.uploadStatus = "pending" ∧
      p.configureStatus = "pending" ∧ p.deployStatus = "pending") ∧
    getSession (storeSession store (batch_deploy_artifacts req generatedId now))
        (batch_deploy_artifacts req generatedId now).deployment_id =
      some (batch_deploy_artifacts req generatedId now) := by
  refine ⟨rfl, rfl, by simp [batch_deploy_artifacts], ?_, ?_, ?_⟩
  · intro j a ha
    simp [batch_deploy_artifacts, List.getElem?_map, ha]
  · intro p hp
    simp only [batch_deploy_artifacts, List.mem_map] at hp
    rcases hp with ⟨a, _, rfl⟩
    exact ⟨rfl, rfl, rfl, rfl⟩
  · simp [getSession, storeSession]

/-- Claim C9 witness: a two-artifact submission yields an `initialized`
session with two pending progress records, in order, retrievable from the
registry under its deployment id. -/
theorem batch_submission_initial_state_witness :
    (batch_deploy_artifacts reqTwo "gen" "t0").status = "initialized" ∧
    (batch_deploy_artifacts reqTwo "gen" "t0").total_artifacts = 2 ∧
    (batch_deploy_artifacts reqTwo "gen" "t0").progress[1]? =
      some (initialProgress artA) ∧
    (initialProgress artA).overallStatus = "pending" ∧
    getSession (storeSession [] (batch_deploy_artifacts reqTwo "gen" "t0"))
        (batch_deploy_artifacts reqTwo "gen" "t0").deployment_id =
      some (batch_deploy_artifacts reqTwo "gen" "t0") := by
  have h := batch_submission_initial_state reqTwo "gen" "t0" []
  exact ⟨h.1, h.2.1, h.2.2.2.1 1 artA (by decide), rfl, h.2.2.2.2.2⟩
theorem dsaStep5_outcome (env : ArtifactEnv) (p8 : DeploymentProgress)
    (tr : List (Step × DeploymentProgress)) :
    ((dsaStep5Deploy env p8 tr).fst.overallStatus = "completed" ∧
     (dsaStep5Deploy env p8 tr).fst.uploadStatus = p8.uploadStatus ∧
     (dsaStep5Deploy env p8 tr).fst.configureStatus = p8.configureStatus ∧
     (dsaStep5Deploy env p8 tr).fst.deployStatus = "completed") ∨
    (dsaStep5Deploy env p8 tr).fst.overallStatus = "failed" := by
  unfold dsaStep5Deploy
  rcases h : env.deployCall with e | res
  · simp [h, failProgress]
  · by_cases hs : (res.status == "deployed") = true
    · simp [h, hs]
    · simp [h, hs]

theorem dsaStep4_outcome (env : ArtifactEnv) (artifact : DeploymentArtifact)
    (p6 : DeploymentProgress) (tr : List (Step × DeploymentProgress)) :
    ((dsaStep4Configure env artifact p6 tr).fst.overallStatus = "completed" ∧
     (dsaStep4Configure env artifact p6 tr).fst.uploadStatus = p6.uploadStatus ∧
     (dsaStep4Configure env artifact p6 tr).fst.deployStatus = "completed" ∧
     ((dsaStep4Configure env artifact p6 tr).fst.configureStatus = "completed" ∨
      (dsaStep4Configure env artifact p6 tr).fst.configureStatus = "failed")) ∨
    (dsaStep4Configure env artifact p6 tr).fst.overallStatus = "failed" := by
  unfold dsaStep4Configure
  rcases h : env.readConfigRows with e | rows
  · simp [h, failProgress]
  · simp only [h]
    split
    · exact (dsaStep5_outcome env _ _).imp
        (fun hc => ⟨hc.1, hc.2.1, hc.2.2.2, Or.inr hc.2.2.1⟩) id
    · rcases hb : (batch_update_iflow_config env.updParam
          (rows.filter (fun r => r.iFlow_ID == artifact.iflowId &&
            r.iFlow_Version == artifact.version))).snd with fs | b
      · simp [hb, failProgress]
      · simp only [hb]
        exact (dsaStep5_outcome env _ _).imp
          (fun hc => ⟨hc.1, hc.2.1, hc.2.2.2, Or.inl hc.2.2.1⟩) id

theorem dsaStep3_outcome (env : ArtifactEnv) (artifact : DeploymentArtifact)
    (p5 : DeploymentProgress) (tr : List (Step × DeploymentProgress)) :
    ((dsaStep3Upload env artifact p5 tr).fst.overallStatus = "completed" ∧
     (dsaStep3Upload env artifact p5 tr).fst.uploadStatus = p5.uploadStatus ∧
     (dsaStep3Upload env artifact p5 tr).fst.deployStatus = "completed" ∧
     ((dsaStep3Upload env artifact p5 tr).fst.configureStatus = "completed" ∨
      (dsaStep3Upload env artifact p5 tr).fst.configureStatus = "failed")) ∨
    (dsaStep3Upload env artifact p5 tr).fst.overallStatus = "failed" := by
  unfold dsaStep3Upload
  rcases h : env.iflowExists with e | ex
  · simp [h, failProgress]
  · simp only [h]
    rcases h2 : (if ex then env.updateIflow else env.uploadIflow) with e | u
    · simp [h2, failProgress]
    · simp only [h2]
      exact dsaStep4_outcome env artifact _ _

theorem dsaStep2_outcome (env : ArtifactEnv) (artifact : DeploymentArtifact)
    (p3 : DeploymentProgress) (tr : List (Step × DeploymentProgress)) :
    ((dsaStep2Package env artifact p3 tr).fst.overallStatus = "completed" ∧
     (dsaStep2Package env artifact p3 tr).fst.uploadStatus = p3.uploadStatus ∧
     (dsaStep2Package env artifact p3 tr).fst.deployStatus = "completed" ∧
     ((dsaStep2Package env artifact p3 tr).fst.configureStatus = "completed" ∨
      (dsaStep2Package env artifact p3 tr).fst.configureStatus = "failed")) ∨
    (dsaStep2Package env artifact p3 tr).fst.overallStatus = "failed" := by
  unfold dsaStep2Package
  rcases h : env.packageExists with e | pe
  · simp [h, failProgress]
  · simp only [h]
    rcases pe with _ | _
    · rcases hg : env.getPackageDetails with e | u
      · simp [hg, failProgress]
      · simp only [hg]
        rcases hc : env.createPackage with e | u2
        · simp [hc, failProgress]
        · exact dsaStep3_outcome env artifact _ _
    · exact dsaStep3_outcome env artifact _ _

theorem dsa_outcome (env : ArtifactEnv) (artifact : DeploymentArtifact)
    (p0 : DeploymentProgress) :
    ((deploy_single_artifact env artifact p0).fst.overallStatus = "completed" ∧
     (deploy_single_artifact env artifact p0).fst.uploadStatus = "completed" ∧
     (deploy_single_artifact env artifact p0).fst.deployStatus = "completed" ∧
     ((deploy_single_artifact env artifact p0).fst.configureStatus = "completed" ∨
      (deploy_single_artifact env artifact p0).fst.configureStatus = "failed")) ∨
    (deploy_single_artifact env artifact p0).fst.overallStatus = "failed" := by
  unfold deploy_single_artifact
  rcases h : env.fetchArtifact with e | c
  · simp [h, failProgress]
  · simp only [h]
    exact dsaStep2_outcome env artifact _ _

/-- Claim C2: when the earlier phases succeed and zero configuration rows
match the artifact's id and version, the configure phase is recorded as
`failed` with the no-configuration-parameters message (a soft warning: the
overall status is still `in-progress` at that point), and the workflow still
executes the deploy phase, whose outcome decides the artifact. -/
theorem configure_soft_failure_proceeds_to_deploy
    (env : ArtifactEnv) (artifact : DeploymentArtifact) (p0 : DeploymentProgress)
    (c : String) (hf : env.fetchArtifact = Except.ok c)
    (hpe : env.packageExists = Except.ok true)
    (ex : Bool) (hie : env.iflowExists = Except.ok ex)
    (hup : (if ex then env.updateIflow else env.uploadIflow) = Except.ok ())
    (rows : List ConfigRow) (hrows : env.readConfigRows = Except.ok rows)
    (hempty : rows.filter (fun r =>
      r.iFlow_ID == artifact.iflowId && r.iFlow_Version == artifact.version) = [])
    (res : DeployResult) (hdc : env.deployCall = Except.ok res) :
    ∃ s, (Step.configure, s) ∈ (deploy_single_artifact env artifact p0).snd ∧
      s.configureStatus = "failed" ∧
      s.message = "No configuration parameters found for this iFlow/version." ∧
      s.errorMessage = some "No configuration parameters found." ∧
      ("no configuration parameters found".data.isPrefixOf
        (s.message.data.map Char.toLower)) = true ∧
      s.overallStatus = "in-progress" ∧
      (Step.deploy, (deploy_single_artifact env artifact p0).fst) ∈
        (deploy_single_artifact env artifact p0).snd := by
  simp only [deploy_single_artifact, dsaStep2Package, dsaStep3Upload,
    dsaStep4Configure, dsaStep5Deploy, hf, hpe, hie, hup, hrows, hempty, hdc,
    List.isEmpty_nil, if_true]
  apply Exists.intro ({ p0 with uploadStatus := "completed", uploadProgress := 100, configureStatus := "failed", configureProgress := 0, overallStatus := "in-progress", message := "No configuration parameters found for this iFlow/version.", errorMessage := some "No configuration parameters found.", startTime := some env.now })
  refine ⟨?_, rfl, rfl, rfl, ?_, rfl, ?_⟩
  · by_cases hs : (res.status == "deployed") = true
    · simp [hs]
    · simp [hs]
  · show ("no configuration parameters found".data.isPrefixOf
      ("No configuration parameters found for this iFlow/version.".data.map Char.toLower)) = true
    decide
  · by_cases hs : (res.status == "deployed") = true
    · simp [hs]
    · simp [hs]

/-- Claim C2 witness: concrete run with an empty configuration CSV. -/
theorem configure_soft_failure_proceeds_to_deploy_witness :
    ∃ s, (Step.configure, s) ∈
        (deploy_single_artifact envAllOkNoRows artA (initialProgress artA)).snd ∧
      s.configureStatus = "failed" ∧
      s.message = "No configuration parameters found for this iFlow/version." ∧
      s.errorMessage = some "No configuration parameters found." ∧
      ("no configuration parameters found".data.isPrefixOf
        (s.message.data.map Char.toLower)) = true ∧
      s.overallStatus = "in-progress" ∧
      (Step.deploy,
        (deploy_single_artifact envAllOkNoRows artA (initialProgress artA)).fst) ∈
        (deploy_single_artifact envAllOkNoRows artA (initialProgress artA)).snd :=
  configure_soft_failure_proceeds_to_deploy envAllOkNoRows artA
    (initialProgress artA) "bytes" rfl rfl true rfl rfl [] rfl rfl
    deployedResult rfl

/-- Claim C10: the upload phase status is set to `completed` (progress 100)
right after the artifact binary is fetched, before any write to the
destination tenant; if the destination upload/update then raises, the final
record is overall `failed` with `uploadStatus` still `completed`,
`configureStatus` `completed` (from the package step) and `deployStatus`
`pending` — no individual phase status reads `failed`. -/
theorem upload_completed_before_destination_write
    (env : ArtifactEnv) (artifact : DeploymentArtifact) (c : String)
    (hf : env.fetchArtifact = Except.ok c)
    (hpp : packagePhaseOk env)
    (ex : Bool) (hie : env.iflowExists = Except.ok ex)
    (e : String)
    (hup : (if ex then env.updateIflow else env.uploadIflow) = Except.error e) :
    (deploy_single_artifact env artifact (initialProgress artifact)).snd.map
        (fun sp => (sp.fst, sp.snd.uploadStatus, sp.snd.uploadProgress)) =
      [(Step.fetch, "completed", 100), (Step.ensurePackage, "completed", 100)] ∧
    Step.uploadOrUpdate ∉
      ((deploy_single_artifact env artifact (initialProgress artifact)).snd.map
        Prod.fst) ∧
    (deploy_single_artifact env artifact (initialProgress artifact)).fst.overallStatus = "failed" ∧
    (deploy_single_artifact env artifact (initialProgress artifact)).fst.uploadStatus = "completed" ∧
    (deploy_single_artifact env artifact (initialProgress artifact)).fst.configureStatus = "completed" ∧
    (deploy_single_artifact env artifact (initialProgress artifact)).fst.deployStatus = "pending" ∧
    (deploy_single_artifact env artifact (initialProgress artifact)).fst.errorMessage = some e := by
  rcases hpp with hp | ⟨hp, hg, hcr⟩
  · simp [deploy_single_artifact, dsaStep2Package, dsaStep3Upload, hf, hp, hie,
      hup, failProgress, initialProgress]
  · simp [deploy_single_artifact, dsaStep2Package, dsaStep3Upload, hf, hp, hg,
      hcr, hie, hup, failProgress, initialProgress]

/-- Claim C10 witness: concrete run in which the destination upload raises. -/
theorem upload_completed_before_destination_write_witness :
    (deploy_single_artifact envUploadRaises artA (initialProgress artA)).snd.map
        (fun sp => (sp.fst, sp.snd.uploadStatus, sp.snd.uploadProgress)) =
      [(Step.fetch, "completed", 100), (Step.ensurePackage, "completed", 100)] ∧
    Step.uploadOrUpdate ∉
      ((deploy_single_artifact envUploadRaises artA (initialProgress artA)).snd.map
        Prod.fst) ∧
    (deploy_single_artifact envUploadRaises artA (initialProgress artA)).fst.overallStatus = "failed" ∧
    (deploy_single_artifact envUploadRaises artA (initialProgress artA)).fst.uploadStatus = "completed" ∧
    (deploy_single_artifact envUploadRaises artA (initialProgress artA)).fst.configureStatus = "completed" ∧
    (deploy_single_artifact envUploadRaises artA (initialProgress artA)).fst.deployStatus = "pending" ∧
    (deploy_single_artifact envUploadRaises artA (initialProgress artA)).fst.errorMessage =
      some "Failed to upload iFlow: 500 err" :=
  upload_completed_before_destination_write envUploadRaises artA "bytes" rfl
    (Or.inl rfl) false rfl "Failed to upload iFlow: 500 err" rfl

/-- Claim C1 counterexample: in a run where every remote call succeeds but no
configuration row matches, the final progress record has overall status
`completed` while its configure phase status is `failed`, so overall
`completed` does not require all three phase statuses to be `completed`. -/
theorem overall_completed_with_failed_configure_phase :
    ¬ ((deploy_single_artifact envAllOkNoRows artA (initialProgress artA)).fst.overallStatus = "completed" →
       (deploy_single_artifact envAllOkNoRows artA (initialProgress artA)).fst.uploadStatus = "completed" ∧
       (deploy_single_artifact envAllOkNoRows artA (initialProgress artA)).fst.configureStatus = "completed" ∧
       (deploy_single_artifact envAllOkNoRows artA (initialProgress artA)).fst.deployStatus = "completed") := by
  intro h
  exact absurd (h rfl).2.1 (by decide)

/-- Claim C1 (amended): the final overall status is always `completed` or
`failed`; it is `completed` only if the upload and deploy phase statuses are
`completed` (the configure status may be `completed` or — after the
no-matching-rows soft warning — `failed`); a raised exception in any phase
marks the artifact `failed` and no later phase executes (the trace stops at
the phase before the failure); and the configure soft failure is the one
failure after which the workflow still proceeds, the deploy outcome then
deciding the artifact. -/
theorem deploy_single_artifact_phase_invariant (env : ArtifactEnv) (artifact : DeploymentArtifact)
    (p0 : DeploymentProgress) :
    ((deploy_single_artifact env artifact p0).fst.overallStatus = "completed" ∨
     (deploy_single_artifact env artifact p0).fst.overallStatus = "failed") ∧
    ((deploy_single_artifact env artifact p0).fst.overallStatus = "completed" →
      (deploy_single_artifact env artifact p0).fst.uploadStatus = "completed" ∧
      (deploy_single_artifact env artifact p0).fst.deployStatus = "completed" ∧
      ((deploy_single_artifact env artifact p0).fst.configureStatus = "completed" ∨
       (deploy_single_artifact env artifact p0).fst.configureStatus = "failed")) ∧
    (∀ e, env.fetchArtifact = Except.error e →
      (deploy_single_artifact env artifact p0).fst.overallStatus = "failed" ∧
      (deploy_single_artifact env artifact p0).snd = []) ∧
    (∀ c e, env.fetchArtifact = Except.ok c →
      env.packageExists = Except.error e →
      (deploy_single_artifact env artifact p0).fst.overallStatus = "failed" ∧
      (deploy_single_artifact env artifact p0).snd.map Prod.fst = [Step.fetch]) ∧
    (∀ c e, env.fetchArtifact = Except.ok c →
      env.packageExists = Except.ok false →
      env.getPackageDetails = Except.error e →
      (deploy_single_artifact env artifact p0).fst.overallStatus = "failed" ∧
      (deploy_single_artifact env artifact p0).snd.map Prod.fst = [Step.fetch]) ∧
    (∀ c e, env.fetchArtifact = Except.ok c →
      env.packageExists = Except.ok false →
      env.getPackageDetails = Except.ok () →
      env.createPackage = Except.error e →
      (deploy_single_artifact env artifact p0).fst.overallStatus = "failed" ∧
      (deploy_single_artifact env artifact p0).snd.map Prod.fst = [Step.fetch]) ∧
    (∀ c e, env.fetchArtifact = Except.ok c → packagePhaseOk env →
      env.iflowExists = Except.error e →
      (deploy_single_artifact env artifact p0).fst.overallStatus = "failed" ∧
      (deploy_single_artifact env artifact p0).snd.map Prod.fst =
        [Step.fetch, Step.ensurePackage]) ∧
    (∀ c (ex : Bool) e, env.fetchArtifact = Except.ok c → packagePhaseOk env →
      env.iflowExists = Except.ok ex →
      (if ex then env.updateIflow else env.uploadIflow) = Except.error e →
      (deploy_single_artifact env artifact p0).fst.overallStatus = "failed" ∧
      (deploy_single_artifact env artifact p0).snd.map Prod.fst =
        [Step.fetch, Step.ensurePackage]) ∧
    (∀ c (ex : Bool) e, env.fetchArtifact = Except.ok c → packagePhaseOk env →
      env.iflowExists = Except.ok ex →
      (if ex then env.updateIflow else env.uploadIflow) = Except.ok () →
      env.readConfigRows = Except.error e →
      (deploy_single_artifact env artifact p0).fst.overallStatus = "failed" ∧
      (deploy_single_artifact env artifact p0).snd.map Prod.fst =
        [Step.fetch, Step.ensurePackage, Step.uploadOrUpdate]) ∧
    (∀ c (ex : Bool) rows fs, env.fetchArtifact = Except.ok c →
      packagePhaseOk env →
      env.iflowExists = Except.ok ex →
      (if ex then env.updateIflow else env.uploadIflow) = Except.ok () →
      env.readConfigRows = Except.ok rows →
      (rows.filter (fun r => r.iFlow_ID == artifact.iflowId &&
        r.iFlow_Version == artifact.version)).isEmpty = false →
      (batch_update_iflow_config env.updParam
        (rows.filter (fun r => r.iFlow_ID == artifact.iflowId &&
          r.iFlow_Version == artifact.version))).snd = Except.error fs →
      (deploy_single_artifact env artifact p0).fst.overallStatus = "failed" ∧
      (deploy_single_artifact env artifact p0).snd.map Prod.fst =
        [Step.fetch, Step.ensurePackage, Step.uploadOrUpdate]) ∧
    (∀ c (ex : Bool) rows res, env.fetchArtifact = Except.ok c →
      packagePhaseOk env →
      env.iflowExists = Except.ok ex →
      (if ex then env.updateIflow else env.uploadIflow) = Except.ok () →
      env.readConfigRows = Except.ok rows →
      rows.filter (fun r => r.iFlow_ID == artifact.iflowId &&
        r.iFlow_Version == artifact.version) = [] →
      env.deployCall = Except.ok res → res.status = "deployed" →
      (deploy_single_artifact env artifact p0).fst.overallStatus = "completed" ∧
      (deploy_single_artifact env artifact p0).fst.configureStatus = "failed") := by
  refine ⟨?_, ?_, ?_, ?_, ?_, ?_, ?_, ?_, ?_, ?_, ?_⟩
  · rcases dsa_outcome env artifact p0 with ⟨h1, _, _, _⟩ | h1
    · exact Or.inl h1
    · exact Or.inr h1
  · intro hc
    rcases dsa_outcome env artifact p0 with ⟨_, h2, h3, h4⟩ | h1
    · exact ⟨h2, h3, h4⟩
    · rw [h1] at hc
      exact absurd hc (by decide)
  · intro e hf
    simp [deploy_single_artifact, hf, failProgress]
  · intro c e hf hpe
    simp [deploy_single_artifact, dsaStep2Package, hf, hpe, failProgress]
  · intro c e hf hpe hg
    simp [deploy_single_artifact, dsaStep2Package, hf, hpe, hg, failProgress]
  · intro c e hf hpe hg hcr
    simp [deploy_single_artifact, dsaStep2Package, hf, hpe, hg, hcr, failProgress]
  · intro c e hf hpp hie
    rcases hpp with hp | ⟨hp, hg, hcr⟩
    · simp [deploy_single_artifact, dsaStep2Package, dsaStep3Upload, hf, hp,
        hie, failProgress]
    · simp [deploy_single_artifact, dsaStep2Package, dsaStep3Upload, hf, hp,
        hg, hcr, hie, failProgress]
  · intro c ex e hf hpp hie hup
    rcases hpp with hp | ⟨hp, hg, hcr⟩
    · simp [deploy_single_artifact, dsaStep2Package, dsaStep3Upload, hf, hp,
        hie, hup, failProgress]
    · simp [deploy_single_artifact, dsaStep2Package, dsaStep3Upload, hf, hp,
        hg, hcr, hie, hup, failProgress]
  · intro c ex e hf hpp hie hup hrows
    rcases hpp with hp | ⟨hp, hg, hcr⟩
    · simp [deploy_single_artifact, dsaStep2Package, dsaStep3Upload,
        dsaStep4Configure, hf, hp, hie, hup, hrows, failProgress]
    · simp [deploy_single_artifact, dsaStep2Package, dsaStep3Upload,
        dsaStep4Configure, hf, hp, hg, hcr, hie, hup, hrows, failProgress]
  · intro c ex rows fs hf hpp hie hup hrows hne hb
    rcases hpp with hp | ⟨hp, hg, hcr⟩
    · simp [deploy_single_artifact, dsaStep2Package, dsaStep3Upload,
        dsaStep4Configure, hf, hp, hie, hup, hrows, hne, hb, failProgress]
    · simp [deploy_single_artifact, dsaStep2Package, dsaStep3Upload,
        dsaStep4Configure, hf, hp, hg, hcr, hie, hup, hrows, hne, hb,
        failProgress]
  · intro c ex rows res hf hpp hie hup hrows hempty hdc hst
    rcases hpp with hp | ⟨hp, hg, hcr⟩
    · simp [deploy_single_artifact, dsaStep2Package, dsaStep3Upload,
        dsaStep4Configure, dsaStep5Deploy, hf, hp, hie, hup, hrows, hempty,
        hdc, hst]
    · simp [deploy_single_artifact, dsaStep2Package, dsaStep3Upload,
        dsaStep4Configure, dsaStep5Deploy, hf, hp, hg, hcr, hie, hup, hrows,
        hempty, hdc, hst]

/-- Claim C1 witness: a raised fetch marks the artifact `failed` with an
empty completed-phase trace, and the soft-failure run completes with a
`failed` configure phase. -/
theorem deploy_single_artifact_phase_invariant_witness :
    ((deploy_single_artifact envFetchRaises artA (initialProgress artA)).fst.overallStatus = "failed" ∧
     (deploy_single_artifact envFetchRaises artA (initialProgress artA)).snd = []) ∧
    ((deploy_single_artifact envAllOkNoRows artA (initialProgress artA)).fst.overallStatus = "completed" ∧
     (deploy_single_artifact envAllOkNoRows artA (initialProgress artA)).fst.configureStatus = "failed") :=
  ⟨(deploy_single_artifact_phase_invariant envFetchRaises artA
      (initialProgress artA)).2.2.1 "404 Not Found" rfl,
   (deploy_single_artifact_phase_invariant envAllOkNoRows artA
      (initialProgress artA)).2.2.2.2.2.2.2.2.2.2 "bytes" true [] deployedResult
      rfl (Or.inl rfl) rfl rfl rfl rfl rfl rfl⟩

theorem runWorkflows_length (envs : Nat → ArtifactEnv) :
    ∀ (i : Nat) (pairs : List (DeploymentArtifact × DeploymentProgress)),
      (runWorkflows envs i pairs).length = pairs.length
  | _, [] => rfl
  | i, (a, p) :: rest => by
    simp [runWorkflows, runWorkflows_length envs (i + 1) rest]

theorem runWorkflows_getElem (envs : Nat → ArtifactEnv) :
    ∀ (pairs : List (DeploymentArtifact × DeploymentProgress)) (i k : Nat),
      (runWorkflows envs i pairs)[k]? =
        (pairs[k]?).map
          (fun ap => (deploy_single_artifact (envs (i + k)) ap.fst ap.snd).fst) := by
  intro pairs
  induction pairs with
  | nil =>
    intro i k
    simp [runWorkflows]
  | cons hd tl ih =>
    intro i k
    rcases hd with ⟨a, p⟩
    cases k with
    | zero => simp [runWorkflows]
    | succ k2 =>
      have harith : i + 1 + k2 = i + (k2 + 1) := by omega
      simp only [runWorkflows, List.getElem?_cons_succ, ih (i + 1) k2, harith]

theorem zip_getElem_some {α β : Type} :
    ∀ (l1 : List α) (l2 : List β) (j : Nat) (a : α) (b : β),
      l1[j]? = some a → l2[j]? = some b → (l1.zip l2)[j]? = some (a, b)
  | [], _, j, a, b, h1, _ => by simp at h1
  | _ :: _, [], j, a, b, _, h2 => by simp at h2
  | x :: xs, y :: ys, 0, a, b, h1, h2 => by
    simp only [List.getElem?_cons_zero, Option.some.injEq] at h1 h2
    simp [List.zip_cons_cons, h1, h2]
  | x :: xs, y :: ys, j + 1, a, b, h1, h2 => by
    simp only [List.getElem?_cons_succ] at h1 h2
    simp [List.zip_cons_cons, List.getElem?_cons_succ,
      zip_getElem_some xs ys j a b h1 h2]

/-- Claim C3: after all workflows settle, the session status is `completed`
when no artifact's overall status is `failed`, `failed` when some artifact
failed and none reached `completed`, and `partial` when both kinds exist. -/
theorem session_status_aggregation (envs : Nat → ArtifactEnv) (now : String)
    (artifacts : List DeploymentArtifact) (session : BatchDeploymentResponse) :
    ((((execute_batch_deployment envs now artifacts session).progress.filter
        (fun p => p.overallStatus == "failed")).length = 0) →
      (execute_batch_deployment envs now artifacts session).status =
        "completed") ∧
    ((((execute_batch_deployment envs now artifacts session).progress.filter
        (fun p => p.overallStatus == "failed")).length ≠ 0) →
      (((execute_batch_deployment envs now artifacts session).progress.filter
        (fun p => p.overallStatus == "completed")).length = 0) →
      (execute_batch_deployment envs now artifacts session).status = "failed") ∧
    ((((execute_batch_deployment envs now artifacts session).progress.filter
        (fun p => p.overallStatus == "failed")).length ≠ 0) →
      (((execute_batch_deployment envs now artifacts session).progress.filter
        (fun p => p.overallStatus == "completed")).length ≠ 0) →
      (execute_batch_deployment envs now artifacts session).status =
        "partial") := by
  have hkey : (execute_batch_deployment envs now artifacts session).status =
      computeSessionStatus
        (execute_batch_deployment envs now artifacts session).progress := rfl
  refine ⟨fun h1 => ?_, fun h1 h2 => ?_, fun h1 h2 => ?_⟩
  · rw [hkey]
    simp [computeSessionStatus, h1]
  · rw [hkey]
    simp [computeSessionStatus, h1, h2]
  · rw [hkey]
    simp [computeSessionStatus, h1, h2]

/-- Claim C3 witness: a two-artifact batch where artifact 0 fails at deploy
and artifact 1 completes yields session status `partial`. -/
theorem session_status_aggregation_witness :
    ((execute_batch_deployment envsMixed "t1" reqTwo.artifacts
        (batch_deploy_artifacts reqTwo "gen" "t0")).progress.filter
        (fun p => p.overallStatus == "failed")).length ≠ 0 ∧
    ((execute_batch_deployment envsMixed "t1" reqTwo.artifacts
        (batch_deploy_artifacts reqTwo "gen" "t0")).progress.filter
        (fun p => p.overallStatus == "completed")).length ≠ 0 ∧
    (execute_batch_deployment envsMixed "t1" reqTwo.artifacts
        (batch_deploy_artifacts reqTwo "gen" "t0")).status = "partial" := by
  refine ⟨by decide, by decide, ?_⟩
  exact (session_status_aggregation envsMixed "t1" reqTwo.artifacts
    (batch_deploy_artifacts reqTwo "gen" "t0")).2.2 (by decide) (by decide)

/-- Claim C4: the final progress record at index `j` is exactly the output
of artifact `j`'s own workflow on its own initial record and its own remote
outcomes — independent of every other artifact's outcomes, including ones
that raise in any phase — and the executor always recomputes the session
status from the settled progress records. -/
theorem artifact_workflow_isolation (envs : Nat → ArtifactEnv) (now : String)
    (artifacts : List DeploymentArtifact) (session : BatchDeploymentResponse)
    (j : Nat) (a : DeploymentArtifact) (p : DeploymentProgress)
    (ha : artifacts[j]? = some a) (hp : session.progress[j]? = some p) :
    (execute_batch_deployment envs now artifacts session).progress[j]? =
      some (deploy_single_artifact (envs j) a p).fst ∧
    (execute_batch_deployment envs now artifacts session).status =
      computeSessionStatus
        (execute_batch_deployment envs now artifacts session).progress := by
  constructor
  · have hz := zip_getElem_some artifacts session.progress j a p ha hp
    have hj : j < (artifacts.zip session.progress).length := by
      rcases List.getElem?_eq_some.mp hz with ⟨h, _⟩
      exact h
    show (runWorkflows envs 0 (artifacts.zip session.progress) ++
        session.progress.drop artifacts.length)[j]? =
      some (deploy_single_artifact (envs j) a p).fst
    rw [List.getElem?_append_left (by rw [runWorkflows_length]; exact hj)]
    rw [runWorkflows_getElem]
    simp [hz]
  · rfl

/-- Claim C4 witness: with artifact 0's deploy failing, artifact 1's final
record is still exactly its own successful workflow's output. -/
theorem artifact_workflow_isolation_witness :
    (execute_batch_deployment envsMixed "t1" reqTwo.artifacts
        (batch_deploy_artifacts reqTwo "gen" "t0")).progress[1]? =
      some (deploy_single_artifact (envsMixed 1) artA (initialProgress artA)).fst ∧
    (execute_batch_deployment envsMixed "t1" reqTwo.artifacts
        (batch_deploy_artifacts reqTwo "gen" "t0")).status =
      computeSessionStatus
        (execute_batch_deployment envsMixed "t1" reqTwo.artifacts
          (batch_deploy_artifacts reqTwo "gen" "t0")).progress :=
  artifact_workflow_isolation envsMixed "t1" reqTwo.artifacts
    (batch_deploy_artifacts reqTwo "gen" "t0") 1 artA (initialProgress artA)
    (by decide) (by decide)
